import Mathlib

/-!
Verification development for the student-performance pipeline
(`src/data_generator.py`, `src/model.py`, `src/app.py`).

The Python sources are shallowly embedded: numpy/pandas/sklearn values are
rationals, the numpy global random state is an abstract state type threaded
explicitly, and library sampling routines are fields of an `NpRandom`
structure (so every theorem ranges over all possible draws unless a bound
is a genuine property of the distribution, recorded as a structure field).
-/

namespace StudentPerf

/-! ## Embedding of `src/data_generator.py` -/

/-- numpy `x.clip(lo, hi)` applied elementwise. -/
def clip (lo hi x : ℚ) : ℚ := min (max x lo) hi

/-- numpy `.astype(int)`: truncation toward zero. -/
def truncToInt (x : ℚ) : ℤ := if 0 ≤ x then x.floor else -(-x).floor

/-- numpy rounding of a scaled value to the nearest integer, ties to even
(`np.round` uses round-half-to-even). -/
def roundHalfEven (x : ℚ) : ℤ :=
  let f := x.floor
  let r := x - (f : ℚ)
  if r < 1/2 then f
  else if 1/2 < r then f + 1
  else if f % 2 = 0 then f else f + 1

/-- Embeds `np.round(x, 2)`. -/
def round2 (x : ℚ) : ℚ := ((roundHalfEven (x * 100) : ℤ) : ℚ) / 100

/-- Python `str(i).zfill(width)`. -/
def zfill (width : ℕ) (s : String) : String :=
  String.mk (List.replicate (width - s.length) '0') ++ s

/--
The numpy global random interface used by `StudentDataGenerator`, over an
abstract state type `σ`.  `seed` models `np.random.seed`; each sampler
consumes and returns state.  `choiceIdx n p` models `np.random.choice`
over an `n`-element array with probability vector `p` by drawing an index.
The two `Prop` fields record facts guaranteed by numpy that clipping does
not already provide: a Beta draw lies in `[0,1]`, and a choice index is in
range.
-/
structure NpRandom (σ : Type) where
  seed : ℕ → σ
  normal : ℚ → ℚ → σ → ℚ × σ
  lognormal : ℚ → ℚ → σ → ℚ × σ
  betaSample : ℚ → ℚ → σ → ℚ × σ
  gammaSample : ℚ → ℚ → σ → ℚ × σ
  exponential : ℚ → σ → ℚ × σ
  poisson : ℚ → σ → ℕ × σ
  choiceIdx : ℕ → List ℚ → σ → ℕ × σ
  betaSample_unit : ∀ a b s, 0 ≤ (betaSample a b s).1 ∧ (betaSample a b s).1 ≤ 1
  choiceIdx_lt : ∀ n p s, 0 < n → (choiceIdx n p s).1 < n

/-- Draw `n` values from sampler `d`, threading the state (one numpy array
call of size `n`). -/
def drawN {σ α : Type} (d : σ → α × σ) : ℕ → σ → List α × σ
  | 0, s => ([], s)
  | n + 1, s =>
    let p := d s
    let rest := drawN d n p.2
    (p.1 :: rest.1, rest.2)

/-- Constructor arguments of `StudentDataGenerator`. -/
structure GenConfig where
  num_students : ℕ
  random_seed : ℕ
deriving DecidableEq, Repr

/-- The per-record feature values as they stand when the score formula is
evaluated (clipped, with `previous_gpa` already rounded to 2 decimals but
the other continuous columns not yet rounded for output). -/
structure StudentFeatures where
  age : ℤ
  gender : String
  parental_education : String
  household_income : ℚ
  previous_gpa : ℚ
  study_hours_per_week : ℚ
  attendance_rate : ℚ
  sleep_hours : ℚ
  exercise_hours_per_week : ℚ
  has_internet : ℕ
  has_computer : ℕ
  extracurricular_hours : ℕ
  school_type : String
  class_size : ℤ
deriving DecidableEq, Repr

/-- One output row of `generate_dataset` (fields as stored in the returned
DataFrame, i.e. after the output rounding at construction). -/
structure StudentRecord extends StudentFeatures where
  student_id : String
  final_score : ℚ
deriving DecidableEq, Repr

/-- The `performance_base` expression exactly as `generate_dataset` computes it
(lines 77-92 of `data_generator.py`); note the income term is
`(household_income / 10000) * 0.2`. -/
def performance_base (f : StudentFeatures) : ℚ :=
  f.previous_gpa * 15 +
  f.study_hours_per_week * 1.2 +
  f.attendance_rate * 0.3 +
  f.sleep_hours * 2 +
  f.exercise_hours_per_week * 0.5 +
  (f.has_internet : ℚ) * 3 +
  (f.has_computer : ℚ) * 4 +
  (f.extracurricular_hours : ℚ) * 0.3 +
  (f.household_income / 10000) * 0.2 +
  (if f.parental_education = "PhD" then (5 : ℚ)
   else if f.parental_education = "Master" then 3
   else if f.parental_education = "Bachelor" then 1 else 0) +
  (if f.school_type = "Private" then (2 : ℚ) else 0) +
  ((30 : ℚ) - (f.class_size : ℚ)) * 0.1

/-- All sampled columns of one generation call, in the state-threading
order of the source, before the output rounding and score normalization. -/
structure GenColumns where
  ages : List ℤ
  genders : List String
  parental_education : List String
  household_income : List ℚ
  previous_gpa : List ℚ
  study_hours_per_week : List ℚ
  attendance_rate : List ℚ
  sleep_hours : List ℚ
  exercise_hours_per_week : List ℚ
  has_internet : List ℕ
  has_computer : List ℕ
  extracurricular_hours : List ℕ
  school_type : List String
  class_size : List ℤ
  noise : List ℚ
deriving DecidableEq, Repr

/-- The column-sampling phase of `generate_dataset` (lines 39-95): one
numpy array call per column, in source order, starting from the state set
by `np.random.seed(self.random_seed)`. -/
def genColumns {σ : Type} (rng : NpRandom σ) (g : GenConfig) : GenColumns × σ :=
  let n := g.num_students
  let s0 := rng.seed g.random_seed
  let pAge := drawN (rng.normal 18.5 1.5) n s0
  let pGender := drawN (rng.choiceIdx 3 [0.45, 0.50, 0.05]) n pAge.2
  let pEdu := drawN (rng.choiceIdx 5 [0.3, 0.35, 0.2, 0.1, 0.05]) n pGender.2
  let pIncome := drawN (rng.lognormal 10.5 0.8) n pEdu.2
  let pGpa := drawN (rng.betaSample 2 1) n pIncome.2
  let pStudy := drawN (rng.gammaSample 2 3) n pGpa.2
  let pAtt := drawN (rng.betaSample 5 1) n pStudy.2
  let pSleep := drawN (rng.normal 7 1.2) n pAtt.2
  let pEx := drawN (rng.exponential 3) n pSleep.2
  let pNet := drawN (rng.choiceIdx 2 [0.1, 0.9]) n pEx.2
  let pComp := drawN (rng.choiceIdx 2 [0.15, 0.85]) n pNet.2
  let pExtra := drawN (rng.poisson 3) n pComp.2
  let pSchool := drawN (rng.choiceIdx 2 [0.7, 0.3]) n pExtra.2
  let pClass := drawN (rng.normal 25 5) n pSchool.2
  let pNoise := drawN (rng.normal 0 5) n pClass.2
  ({ ages := pAge.1.map (fun x => truncToInt (clip 16 25 x)),
     genders := pGender.1.map (fun i => ["Male", "Female", "Other"].getD i "Male"),
     parental_education := pEdu.1.map (fun i =>
       ["High School", "Bachelor", "Master", "PhD", "No Formal Education"].getD i "High School"),
     household_income := pIncome.1.map (fun x => clip 20000 200000 x),
     previous_gpa := pGpa.1.map (fun x => round2 (x * 4)),
     study_hours_per_week := pStudy.1.map (fun x => clip 1 40 x),
     attendance_rate := pAtt.1.map (fun x => x * 100),
     sleep_hours := pSleep.1.map (fun x => clip 4 12 x),
     exercise_hours_per_week := pEx.1.map (fun x => clip 0 20 x),
     has_internet := pNet.1.map (fun i => [0, 1].getD i 0),
     has_computer := pComp.1.map (fun i => [0, 1].getD i 0),
     extracurricular_hours := pExtra.1.map (fun k => min (max k 0) 15),
     school_type := pSchool.1.map (fun i => ["Public", "Private"].getD i "Public"),
     class_size := pClass.1.map (fun x => truncToInt (clip 10 50 x)),
     noise := pNoise.1 }, pNoise.2)

/-- The feature values of record `i` at score-formula time.  The generated
columns all have length `num_students` and every access is in range, so
the `getD` defaults are never read; they are chosen inside the sampled
range of each field. -/
def colFeatures (c : GenColumns) (i : ℕ) : StudentFeatures :=
  { age := c.ages.getD i 16,
    gender := c.genders.getD i "Male",
    parental_education := c.parental_education.getD i "High School",
    household_income := c.household_income.getD i 20000,
    previous_gpa := c.previous_gpa.getD i 0,
    study_hours_per_week := c.study_hours_per_week.getD i 1,
    attendance_rate := c.attendance_rate.getD i 0,
    sleep_hours := c.sleep_hours.getD i 4,
    exercise_hours_per_week := c.exercise_hours_per_week.getD i 0,
    has_internet := c.has_internet.getD i 0,
    has_computer := c.has_computer.getD i 0,
    extracurricular_hours := c.extracurricular_hours.getD i 0,
    school_type := c.school_type.getD i "Public",
    class_size := c.class_size.getD i 10 }

/-- Computes `final_score = performance_base + noise`, per record, before
normalization (lines 95-96). -/
def rawScores (c : GenColumns) (n : ℕ) : List ℚ :=
  (List.range n).map (fun i => performance_base (colFeatures c i) + c.noise.getD i 0)

/-- Failure modes of the normalization pass: the float division
`(x - min) / (max - min)` with a zero denominator (NaN), or taking
`min`/`max` of an empty array. -/
inductive GenError
  | divByZero
  | emptyArray
deriving DecidableEq, Repr

/-- Lines 99-101: min-max normalize the noisy scores onto `[0,100]` and
round to 2 decimals.  `arr.min()`/`arr.max()` of a nonempty numpy array
are folds; on an empty array they raise. -/
def normalizeScores (scores : List ℚ) : Except GenError (List ℚ) :=
  match scores with
  | [] => .error .emptyArray
  | x :: xs =>
    let m := xs.foldl min x
    let M := xs.foldl max x
    if M - m = 0 then .error .divByZero
    else .ok (scores.map (fun y => round2 ((y - m) / (M - m) * 100)))

/-- Assembly of output row `i` (lines 104-121): the stored continuous
columns are rounded to 2 decimals at DataFrame construction, the id is
`"STU" + str(i+1).zfill(4)`, and the final score comes from the
normalized score column. -/
def buildRecord (c : GenColumns) (finals : List ℚ) (i : ℕ) : StudentRecord :=
  { toStudentFeatures :=
      { colFeatures c i with
          household_income := round2 ((colFeatures c i).household_income),
          study_hours_per_week := round2 ((colFeatures c i).study_hours_per_week),
          attendance_rate := round2 ((colFeatures c i).attendance_rate),
          sleep_hours := round2 ((colFeatures c i).sleep_hours),
          exercise_hours_per_week := round2 ((colFeatures c i).exercise_hours_per_week) },
    student_id := "STU" ++ zfill 4 (toString (i + 1)),
    final_score := finals.getD i 0 }

/-- Embeds `StudentDataGenerator.generate_dataset`: reset the seed, sample every
column, compute noisy scores, normalize them, and assemble the DataFrame
rows.  Returns the rows (or the arithmetic failure) together with the
final numpy state. -/
def generate_dataset {σ : Type} (rng : NpRandom σ) (g : GenConfig) (_s : σ) :
    Except GenError (List StudentRecord) × σ :=
  let n := g.num_students
  let pc := genColumns rng g
  let c := pc.1
  match normalizeScores (rawScores c n) with
  | .error e => (.error e, pc.2)
  | .ok finals => (.ok ((List.range n).map (buildRecord c finals)), pc.2)

/-- The education bonus as the spec words it: PhD 5, Master 3, Bachelor 1,
else 0. -/
def education_bonus (e : String) : ℚ :=
  if e = "PhD" then 5 else if e = "Master" then 3 else if e = "Bachelor" then 1 else 0

/-- The base-score formula exactly as the claim words it, in particular
with household-income coefficient `0.02`.  Stated from the spec text for
comparison against `performance_base`. -/
def spec_base_claimed (f : StudentFeatures) : ℚ :=
  15 * f.previous_gpa + 1.2 * f.study_hours_per_week + 0.3 * f.attendance_rate +
  2 * f.sleep_hours + 0.5 * f.exercise_hours_per_week + 3 * (f.has_internet : ℚ) +
  4 * (f.has_computer : ℚ) + 0.3 * (f.extracurricular_hours : ℚ) +
  0.02 * f.household_income + education_bonus f.parental_education +
  (if f.school_type = "Private" then (2 : ℚ) else 0) +
  0.1 * (30 - (f.class_size : ℚ))

/-- The formula of the claim amended only in the income coefficient: the code
computes `(household_income / 10000) * 0.2`, i.e. coefficient `0.00002`. -/
def spec_base_amended (f : StudentFeatures) : ℚ :=
  15 * f.previous_gpa + 1.2 * f.study_hours_per_week + 0.3 * f.attendance_rate +
  2 * f.sleep_hours + 0.5 * f.exercise_hours_per_week + 3 * (f.has_internet : ℚ) +
  4 * (f.has_computer : ℚ) + 0.3 * (f.extracurricular_hours : ℚ) +
  0.00002 * f.household_income + education_bonus f.parental_education +
  (if f.school_type = "Private" then (2 : ℚ) else 0) +
  0.1 * (30 - (f.class_size : ℚ))

/-- A concrete deterministic sampler, used only to instantiate theorems at
concrete inputs: each draw is a simple function of a counter state. -/
def dummyRng : NpRandom ℕ where
  seed := fun k => k
  normal := fun _ _ s => ((s : ℚ), s + 1)
  lognormal := fun _ _ s => ((s : ℚ) * 100000, s + 1)
  betaSample := fun _ _ s => (if s % 2 = 0 then 0 else 1, s + 1)
  gammaSample := fun _ _ s => ((s : ℚ), s + 1)
  exponential := fun _ s => ((s : ℚ), s + 1)
  poisson := fun _ s => (s, s + 1)
  choiceIdx := fun n _ s => (s % n, s + 1)
  betaSample_unit := by
    intro a b s
    dsimp only
    split <;> norm_num
  choiceIdx_lt := by
    intro n p s h
    exact Nat.mod_lt _ h

instance {ε α : Type} [DecidableEq ε] [DecidableEq α] : DecidableEq (Except ε α) :=
  fun a b =>
    match a, b with
    | .error e, .error f =>
      if h : e = f then .isTrue (by rw [h]) else .isFalse (fun hc => by cases hc; exact h rfl)
    | .ok v, .ok w =>
      if h : v = w then .isTrue (by rw [h]) else .isFalse (fun hc => by cases hc; exact h rfl)
    | .error _, .ok _ => .isFalse (fun hc => by cases hc)
    | .ok _, .error _ => .isFalse (fun hc => by cases hc)

/-- The C4 interval constraints, one record. -/
def recordInBounds (r : StudentRecord) : Prop :=
  16 ≤ r.age ∧ r.age ≤ 25 ∧
  0 ≤ r.previous_gpa ∧ r.previous_gpa ≤ 4 ∧
  0 ≤ r.attendance_rate ∧ r.attendance_rate ≤ 100 ∧
  4 ≤ r.sleep_hours ∧ r.sleep_hours ≤ 12 ∧
  0 ≤ r.exercise_hours_per_week ∧ r.exercise_hours_per_week ≤ 20 ∧
  r.extracurricular_hours ≤ 15 ∧
  10 ≤ r.class_size ∧ r.class_size ≤ 50 ∧
  20000 ≤ r.household_income ∧ r.household_income ≤ 200000 ∧
  r.study_hours_per_week ≤ 40 ∧
  0 ≤ r.final_score ∧ r.final_score ≤ 100

instance (r : StudentRecord) : Decidable (recordInBounds r) := by
  unfold recordInBounds
  infer_instance

/-- The concrete dataset used to witness C4. -/
def recsW : List StudentRecord :=
  ((generate_dataset dummyRng ⟨2, 0⟩ 0).1).toOption.getD []

/-! ## Embedding of `src/model.py` -/

/-- A pandas cell: the pipeline columns hold strings (raw categorical
values), numbers, or NaN (missing value in a frame built from records
with unequal key sets). -/
inductive CellVal
  | vstr (s : String)
  | vnum (q : ℚ)
  | vnan
deriving DecidableEq, Repr

/-- Comparison used to embed the sort inside `np.unique`: numbers before
strings before NaN.  The pipeline only ever sorts single-typed columns,
so only the within-constructor comparisons are exercised. -/
def CellVal.le : CellVal → CellVal → Bool
  | .vnum a, .vnum b => decide (a ≤ b)
  | .vnum _, _ => true
  | .vstr _, .vnum _ => false
  | .vstr a, .vstr b => decide (a ≤ b)
  | .vstr _, _ => true
  | .vnan, .vnan => true
  | .vnan, _ => false

def insertSortedCell (x : CellVal) : List CellVal → List CellVal
  | [] => [x]
  | y :: ys => if CellVal.le x y then x :: y :: ys else y :: insertSortedCell x ys

def sortCells (l : List CellVal) : List CellVal := l.foldr insertSortedCell []

/-- Embeds `np.unique(values)`: sorted distinct values. -/
def npUnique (l : List CellVal) : List CellVal := sortCells l.dedup

/-- A fitted `sklearn.preprocessing.LabelEncoder`: its `classes_` array. -/
structure LabelEncoder where
  classes : List CellVal
deriving DecidableEq, Repr

/-- Embeds `LabelEncoder.fit`: `classes_ = np.unique(values)`. -/
def LabelEncoder.fit (values : List CellVal) : LabelEncoder := ⟨npUnique values⟩

/-- Position of a value in the `classes_` array. -/
def indexOfCell (classes : List CellVal) (v : CellVal) : Option ℕ :=
  match classes with
  | [] => none
  | c :: rest => if c = v then some 0 else (indexOfCell rest v).map (· + 1)

/-- Embeds `LabelEncoder.transform`: each value becomes its index in `classes_`;
raises a ValueError on any value not seen at fit time. -/
def LabelEncoder.transform (e : LabelEncoder) (values : List CellVal) :
    Option (List ℚ) :=
  values.mapM (fun v => (indexOfCell e.classes v).map (fun i => (i : ℚ)))

/-- Embeds `LabelEncoder.fit_transform` (fit, then transform; every value is in
the fresh `classes_`, so the transform cannot fail). -/
def LabelEncoder.fit_transform (values : List CellVal) : LabelEncoder × List ℚ :=
  let e := LabelEncoder.fit values
  (e, values.map (fun v => (((indexOfCell e.classes v).getD 0 : ℕ) : ℚ)))

/-- A pandas DataFrame: a row count and named columns. -/
structure DataFrame where
  nrows : ℕ
  cols : List (String × List CellVal)
deriving DecidableEq, Repr

def DataFrame.hasCol (df : DataFrame) (c : String) : Bool :=
  df.cols.any (fun p => p.1 == c)

def DataFrame.getCol (df : DataFrame) (c : String) : List CellVal :=
  ((df.cols.find? (fun p => p.1 == c)).map Prod.snd).getD []

def DataFrame.setCol (df : DataFrame) (c : String) (vs : List CellVal) : DataFrame :=
  ⟨df.nrows, df.cols.map (fun p => if p.1 = c then (p.1, vs) else p)⟩

/-- Line 44 of `model.py`. -/
def categorical_columns : List String := ["gender", "parental_education", "school_type"]

/-- The loop body of `preprocess_data` (lines 46-53): for each categorical
column present in the frame, fit-and-encode if no encoder exists yet,
otherwise reuse the stored encoder to transform; a transform failure
propagates immediately (the encoder map keeps any updates already made). -/
def preprocessLoop : List String → List (String × LabelEncoder) → DataFrame →
    Option DataFrame × List (String × LabelEncoder)
  | [], encs, df => (some df, encs)
  | c :: rest, encs, df =>
    if df.hasCol c then
      match encs.lookup c with
      | none =>
        let p := LabelEncoder.fit_transform (df.getCol c)
        preprocessLoop rest (encs ++ [(c, p.1)]) (df.setCol c (p.2.map CellVal.vnum))
      | some e =>
        match e.transform (df.getCol c) with
        | none => (none, encs)
        | some codes => preprocessLoop rest encs (df.setCol c (codes.map CellVal.vnum))
    else preprocessLoop rest encs df

/-- Embeds `StudentPerformanceModel.preprocess_data`: encode the categorical
columns; returns the processed copy (or the transform error) and the
resulting encoder map. -/
def preprocess_data (encs : List (String × LabelEncoder)) (df : DataFrame) :
    Option DataFrame × List (String × LabelEncoder) :=
  preprocessLoop categorical_columns encs df

/-- The two estimator configurations of `train` (lines 104-112). -/
inductive EstimatorSpec
  | linearRegression
  | randomForestRegressor (n_estimators random_state max_depth min_samples_split : ℕ)
deriving DecidableEq, Repr

/-- A fitted sklearn estimator: its configuration and training data (the
fit is deterministic given these; the numeric prediction function is a
field of `SkLib`). -/
structure FittedEstimator where
  spec : EstimatorSpec
  fitX : List (List ℚ)
  fitY : List ℚ
deriving DecidableEq, Repr

/-- A `StandardScaler`: unfitted, or fitted on a training matrix. -/
inductive ScalerState
  | unfit
  | fitted (X : List (List ℚ))
deriving DecidableEq, Repr

/-- The `model_metrics` record stored by `train` (the training timestamp
is out of scope). -/
structure ModelMetrics where
  mse : ℚ
  rmse : ℚ
  mae : ℚ
  r2_score : ℚ
  model_type : String
  train_size : ℕ
  test_size : ℕ
  feature_importance : Option (List (String × ℚ))
deriving DecidableEq, Repr

/-- The mutable state of `StudentPerformanceModel`. -/
structure SkModel where
  model : Option FittedEstimator
  scaler : ScalerState
  label_encoders : List (String × LabelEncoder)
  feature_columns : Option (List String)
  target_column : String
  model_metrics : Option ModelMetrics
deriving DecidableEq, Repr

/-- Embeds `StudentPerformanceModel.__init__`. -/
def SkModel.init : SkModel :=
  { model := none, scaler := .unfit, label_encoders := [],
    feature_columns := none, target_column := "final_score",
    model_metrics := none }

/-- The sklearn numerics the pipeline delegates to, abstracted: the index
split drawn by `train_test_split(test_size=0.2, random_state=42)`, the
fitted scaler transform, estimator prediction, the square root used for
RMSE, and the tree-ensemble feature importances.  These live outside the
repository, so claims quantify over them. -/
structure SkLib where
  split42 : ℕ → List ℕ × List ℕ
  scaleTransform : List (List ℚ) → List ℚ → List ℚ
  estPredictRow : EstimatorSpec → List (List ℚ) → List ℚ → List ℚ → ℚ
  sqrtQ : ℚ → ℚ
  featImportance : List (List ℚ) → List ℚ → ℕ → List ℚ

/-- The `prepare_features` column choice (lines 67-71): the stored list if
fixed, otherwise every column except `student_id` and the target. -/
def featureColumnsOf (fc : Option (List String)) (target : String) (df : DataFrame) :
    List String :=
  match fc with
  | some l => l
  | none => (df.cols.map Prod.fst).filter (fun c => c != "student_id" && c != target)

/-- Embeds `data[self.feature_columns]`: sub-frame selection; a missing column is
a pandas KeyError. -/
def selectCols (df : DataFrame) (cols : List String) :
    Option (List (String × List CellVal)) :=
  cols.mapM (fun c => if df.hasCol c then some (c, df.getCol c) else none)

/-- Numeric view of a cell.  Feature frames reaching an estimator are
numeric (categoricals already integer-encoded). -/
def cellToQ : CellVal → ℚ
  | .vnum q => q
  | .vstr _ => 0
  | .vnan => 0

/-- Row-major view of a selected sub-frame. -/
def rowsOf (sel : List (String × List CellVal)) (n : ℕ) : List (List ℚ) :=
  (List.range n).map (fun i => sel.map (fun p => cellToQ (p.2.getD i .vnan)))

/-- The failures `predict`/`train` can raise. -/
inductive PredError
  | notTrained
  | unseenCategory
  | missingColumn
  | scalerNotFitted
deriving DecidableEq, Repr

/-- The prediction step of `predict` (lines 178-185): scale the feature
rows only when the estimator is the linear one, then predict row-wise. -/
def predictVals (lib : SkLib) (est : FittedEstimator) (scaler : ScalerState)
    (pdf : DataFrame) (sel : List (String × List CellVal)) :
    Except PredError (List ℚ) :=
  let X := rowsOf sel pdf.nrows
  if est.spec = .linearRegression then
    match scaler with
    | .unfit => .error .scalerNotFitted
    | .fitted D =>
      .ok ((X.map (lib.scaleTransform D)).map
        (lib.estPredictRow est.spec est.fitX est.fitY))
  else
    .ok (X.map (lib.estPredictRow est.spec est.fitX est.fitY))

/-- Embeds `StudentPerformanceModel.predict` (lines 159-185): fail if no model is
trained/loaded; preprocess (reusing fitted encoders); select the feature
columns; scale only for the linear estimator; one prediction per row. -/
def predict (lib : SkLib) (m : SkModel) (df : DataFrame) : Except PredError (List ℚ) :=
  match m.model with
  | none => .error .notTrained
  | some est =>
    match (preprocess_data m.label_encoders df).1 with
    | none => .error .unseenCategory
    | some pdf =>
      match selectCols pdf (featureColumnsOf m.feature_columns m.target_column pdf) with
      | none => .error .missingColumn
      | some sel => predictVals lib est m.scaler pdf sel

def meanQ (l : List ℚ) : ℚ := l.sum / (l.length : ℚ)

def insertImpDesc (x : String × ℚ) : List (String × ℚ) → List (String × ℚ)
  | [] => [x]
  | y :: ys => if y.2 ≤ x.2 then x :: y :: ys else y :: insertImpDesc x ys

/-- Embeds `sort_values` on the importance column, descending. -/
def sortImpDesc (l : List (String × ℚ)) : List (String × ℚ) := l.foldr insertImpDesc []

/-- Embeds `StudentPerformanceModel.train` (lines 78-157): preprocess, fix the
feature columns, split 80/20 with the fixed seed, fit the scaler on the
training split, fit the estimator chosen by `model_type` (`linear` gives
ordinary least squares on scaled features; any other string gives the
100-tree random forest on raw features), evaluate on the held-out split
and store metrics (with a feature-importance ranking exactly when
`model_type` equals `random_forest`). -/
def trainFit (lib : SkLib) (model_type target : String) (fcols : List String)
    (encs : List (String × LabelEncoder)) (pdf : DataFrame)
    (sel : List (String × List CellVal)) : SkModel :=
  let X := rowsOf sel pdf.nrows
  let y := (pdf.getCol target).map cellToQ
  let idx := lib.split42 pdf.nrows
  let Xtr := idx.1.map (fun i => X.getD i [])
  let Xte := idx.2.map (fun i => X.getD i [])
  let ytr := idx.1.map (fun i => y.getD i 0)
  let yte := idx.2.map (fun i => y.getD i 0)
  let XtrS := Xtr.map (lib.scaleTransform Xtr)
  let XteS := Xte.map (lib.scaleTransform Xtr)
  let est : FittedEstimator :=
    if model_type = "linear" then
      { spec := .linearRegression, fitX := XtrS, fitY := ytr }
    else
      { spec := .randomForestRegressor 100 42 10 5, fitX := Xtr, fitY := ytr }
  let ypred :=
    if model_type = "linear" then
      XteS.map (lib.estPredictRow est.spec est.fitX est.fitY)
    else
      Xte.map (lib.estPredictRow est.spec est.fitX est.fitY)
  let mse := meanQ ((yte.zip ypred).map (fun p => (p.1 - p.2) ^ 2))
  let ybar := meanQ yte
  let fi :=
    if model_type = "random_forest" then
      some (sortImpDesc (fcols.zip (lib.featImportance est.fitX est.fitY fcols.length)))
    else none
  { model := some est,
    scaler := .fitted Xtr,
    label_encoders := encs,
    feature_columns := some fcols,
    target_column := target,
    model_metrics := some
      { mse := mse,
        rmse := lib.sqrtQ mse,
        mae := meanQ ((yte.zip ypred).map (fun p => |p.1 - p.2|)),
        r2_score := 1 - (((yte.zip ypred).map (fun p => (p.1 - p.2) ^ 2)).sum /
          (yte.map (fun v => (v - ybar) ^ 2)).sum),
        model_type := model_type,
        train_size := idx.1.length,
        test_size := idx.2.length,
        feature_importance := fi } }

def train (lib : SkLib) (m : SkModel) (df : DataFrame) (model_type : String) :
    Except PredError SkModel :=
  match preprocess_data m.label_encoders df with
  | (none, _) => .error .unseenCategory
  | (some pdf, encs) =>
    match selectCols pdf (featureColumnsOf m.feature_columns m.target_column pdf) with
    | none => .error .missingColumn
    | some sel =>
      if pdf.hasCol m.target_column then
        .ok (trainFit lib model_type m.target_column
          (featureColumnsOf m.feature_columns m.target_column pdf) encs pdf sel)
      else .error .missingColumn

/-! ## Artifact paths of `save_model` / `load_model` -/

/-- posix `os.path.isabs`. -/
def isAbsPath (p : String) : Bool := p.startsWith "/"

/-- posix `os.path.dirname` for the package paths used here (which always
contain at least two separators): everything before the last `/`. -/
def dirnameOf (p : String) : String :=
  String.intercalate "/" (p.splitOn "/").dropLast

/-- posix `os.path.join` for one component. -/
def joinPath (a b : String) : String :=
  if isAbsPath b then b
  else if a = "" then b
  else if a.endsWith "/" then a ++ b
  else a ++ "/" ++ b

/-- Lines 198-199 and 232-233 of `model.py`: a non-absolute `model_dir` is
replaced by the fixed `<package root>/models` directory computed from
`__file__`. -/
def resolve_model_dir (file_py model_dir : String) : String :=
  if isAbsPath model_dir then model_dir
  else joinPath (dirnameOf (dirnameOf file_py)) "models"

/-- The four artifact files `save_model` writes (lines 203-221). -/
def save_model_paths (file_py model_dir : String) : List String :=
  let d := resolve_model_dir file_py model_dir
  [joinPath d "student_performance_model.joblib",
   joinPath d "scaler.joblib",
   joinPath d "label_encoders.joblib",
   joinPath d "model_metadata.joblib"]

/-- The four artifact files `load_model` reads (lines 236-249). -/
def load_model_paths (file_py model_dir : String) : List String :=
  let d := resolve_model_dir file_py model_dir
  [joinPath d "student_performance_model.joblib",
   joinPath d "scaler.joblib",
   joinPath d "label_encoders.joblib",
   joinPath d "model_metadata.joblib"]

/-! ## Embedding of `src/app.py` (`predict_batch`) -/

/-- The parsed JSON body of a `/predict/batch` request: absent (or null),
present but not a list (the flag records the Python truthiness of that
value), or a list of records, each a mapping from field name to value. -/
inductive BatchBody
  | missing
  | nonList (truthy : Bool)
  | list (records : List (List (String × CellVal)))
deriving DecidableEq, Repr

/-- Python truthiness of the body: `None`, `[]`, `{}`, `0`, `""` are
falsy; a nonempty list is truthy. -/
def BatchBody.isTruthy : BatchBody → Bool
  | .missing => false
  | .nonList t => t
  | .list records => !records.isEmpty

/-- Embeds `isinstance(data, list)`. -/
def BatchBody.isList : BatchBody → Bool
  | .list _ => true
  | _ => false

/-- Embeds `pd.DataFrame(data)` from a list of records: columns are the union of
keys in order of first appearance, a record missing a key contributes NaN,
and the frame has one row per record. -/
def toDF (records : List (List (String × CellVal))) : DataFrame :=
  let colNames := ((records.map (fun r => r.map Prod.fst)).flatten).dedup
  ⟨records.length,
    colNames.map (fun c => (c, records.map (fun r => (r.lookup c).getD .vnan)))⟩

/-- One element of the `predictions` array of the handler. -/
structure BatchResult where
  student_index : ℕ
  prediction : ℚ
  input_data : List (String × CellVal)
deriving DecidableEq, Repr

/-- The `/predict/batch` outcomes: 400, 500, or the success payload (`count`
plus per-record results; the timestamp is out of scope). -/
inductive BatchResponse
  | badRequest (msg : String)
  | serverError (msg : String)
  | ok (predictions : List BatchResult) (count : ℕ)
deriving DecidableEq, Repr

/-- The `str(e)` text the handler puts in a 500 response. -/
def PredError.msg : PredError → String
  | .notTrained => "Model not trained yet. Call train() first."
  | .unseenCategory => "y contains previously unseen labels"
  | .missingColumn => "columns not in index"
  | .scalerNotFitted => "This StandardScaler instance is not fitted yet"

/-- The enumerated results array (`for i, (prediction, input_data) in
enumerate(zip(predictions, data))`). -/
def batchResults (preds : List ℚ) (records : List (List (String × CellVal))) :
    List BatchResult :=
  ((preds.zip records).enum).map (fun q => ⟨q.1, q.2.1, q.2.2⟩)

/-- Embeds `predict_batch` (app.py lines 195-230): 500 if no model is loaded;
400 if `not data or not isinstance(data, list)` — i.e. for a missing
body, a non-list body (falsy or truthy), or an empty list (`[]` is falsy
in Python); otherwise build the frame, predict for all rows at once (any
pipeline exception becomes a 500 with no partial result), and enumerate
the results. -/
def predict_batch (lib : SkLib) (model? : Option SkModel) (body : BatchBody) :
    BatchResponse :=
  match model? with
  | none => .serverError "Model not loaded"
  | some m =>
    match body with
    | .missing => .badRequest "Data should be a list of student records"
    | .nonList _ => .badRequest "Data should be a list of student records"
    | .list records =>
      if records.isEmpty then .badRequest "Data should be a list of student records"
      else
        match predict lib m (toDF records) with
        | .error e => .serverError e.msg
        | .ok preds =>
          .ok (batchResults preds records) (batchResults preds records).length

/-! ## Concrete fixtures for witness instantiation -/

/-- Concrete sklearn numerics used only to instantiate theorems. -/
def dummyLib : SkLib :=
  { split42 := fun n => (List.range n, List.range n),
    scaleTransform := fun _ row => row,
    estPredictRow := fun _ _ _ _ => 50,
    sqrtQ := fun q => q,
    featImportance := fun _ _ k => List.replicate k 0 }

def genderEnc : LabelEncoder := ⟨[.vstr "Female", .vstr "Male", .vstr "Other"]⟩

def eduEnc : LabelEncoder :=
  ⟨[.vstr "Bachelor", .vstr "High School", .vstr "Master",
    .vstr "No Formal Education", .vstr "PhD"]⟩

def schoolEnc : LabelEncoder := ⟨[.vstr "Private", .vstr "Public"]⟩

/-- An encoder map as it stands after a training call on the full data. -/
def encsFitted : List (String × LabelEncoder) :=
  [("gender", genderEnc), ("parental_education", eduEnc), ("school_type", schoolEnc)]

def estW : FittedEstimator :=
  ⟨.randomForestRegressor 100 42 10 5, [[1], [0]], [75, 60]⟩

/-- A loaded model instance used to instantiate the serving-layer claims. -/
def modelW : SkModel :=
  { model := some estW, scaler := .fitted [[1], [0]], label_encoders := encsFitted,
    feature_columns := some ["gender"], target_column := "final_score",
    model_metrics := none }

/-- A two-row training frame. -/
def dfTrainW : DataFrame :=
  ⟨2, [("student_id", [.vstr "STU0001", .vstr "STU0002"]),
       ("gender", [.vstr "Male", .vstr "Female"]),
       ("final_score", [.vnum 75, .vnum 60])]⟩

/-- Whether a cell holds a string. -/
def isStrCell : CellVal → Bool
  | .vstr _ => true
  | _ => false

/-- A one-row frame of raw categorical strings. -/
def df0C5 : DataFrame :=
  ⟨1, [("gender", [.vstr "Male"]),
       ("parental_education", [.vstr "Bachelor"]),
       ("school_type", [.vstr "Public"])]⟩

/-- The output of the first preprocessing pass on `df0C5`. -/
def df1C5 : DataFrame := ((preprocess_data encsFitted df0C5).1).getD ⟨0, []⟩

/-- The concrete two-record batch used to witness C8. -/
def recordsW8 : List (List (String × CellVal)) :=
  [[("gender", CellVal.vstr "Male")], [("gender", CellVal.vstr "Female")]]

/-- The concrete predictions for `recordsW8`. -/
def predsW8 : List ℚ :=
  (predict dummyLib modelW (toDF recordsW8)).toOption.getD []

/-! ## Helper lemmas about the numeric primitives -/

/-- The computable `Rat.floor` used in the definitions agrees with the floor. -/
theorem ratFloor_eq (x : ℚ) : x.floor = ⌊x⌋ := by
  rw [Rat.floor_def', ← Rat.floor_def]

theorem clip_le_hi (lo hi x : ℚ) : clip lo hi x ≤ hi := min_le_right _ _

theorem lo_le_clip (lo hi x : ℚ) (h : lo ≤ hi) : lo ≤ clip lo hi x :=
  le_min (le_max_right _ _) h

theorem truncToInt_bounds {a b : ℤ} {x : ℚ} (ha : 0 ≤ a) (h1 : (a : ℚ) ≤ x)
    (h2 : x ≤ (b : ℚ)) : a ≤ truncToInt x ∧ truncToInt x ≤ b := by
  have hx : 0 ≤ x := le_trans (by exact_mod_cast ha) h1
  rw [truncToInt, if_pos hx, ratFloor_eq]
  refine ⟨Int.le_floor.mpr h1, ?_⟩
  have : (⌊x⌋ : ℚ) ≤ (b : ℚ) := le_trans (Int.floor_le x) h2
  exact_mod_cast this

theorem le_roundHalfEven {a : ℤ} {x : ℚ} (h : (a : ℚ) ≤ x) : a ≤ roundHalfEven x := by
  have hfa : a ≤ ⌊x⌋ := Int.le_floor.mpr h
  have : ⌊x⌋ ≤ roundHalfEven x := by
    unfold roundHalfEven
    dsimp only
    rw [ratFloor_eq]
    split_ifs <;> omega
  omega

theorem roundHalfEven_le {b : ℤ} {x : ℚ} (h : x ≤ (b : ℚ)) : roundHalfEven x ≤ b := by
  rcases eq_or_lt_of_le h with heq | hlt
  · subst heq
    unfold roundHalfEven
    dsimp only
    rw [ratFloor_eq, Int.floor_intCast, sub_self]
    norm_num
  · have hfb : ⌊x⌋ + 1 ≤ b := by
      have hlt' : ⌊x⌋ < b := by
        have h1 : (⌊x⌋ : ℚ) < (b : ℚ) := lt_of_le_of_lt (Int.floor_le x) hlt
        exact_mod_cast h1
      omega
    have hle : roundHalfEven x ≤ ⌊x⌋ + 1 := by
      unfold roundHalfEven
      dsimp only
      rw [ratFloor_eq]
      split_ifs <;> omega
    omega

theorem round2_bounds {a b : ℤ} {x : ℚ} (h1 : (a : ℚ) ≤ x) (h2 : x ≤ (b : ℚ)) :
    (a : ℚ) ≤ round2 x ∧ round2 x ≤ (b : ℚ) := by
  have h1' : ((100 * a : ℤ) : ℚ) ≤ x * 100 := by push_cast; linarith
  have h2' : x * 100 ≤ ((100 * b : ℤ) : ℚ) := by push_cast; linarith
  have l1 := le_roundHalfEven h1'
  have l2 := roundHalfEven_le h2'
  have l1' : ((100 * a : ℤ) : ℚ) ≤ ((roundHalfEven (x * 100) : ℤ) : ℚ) := by exact_mod_cast l1
  have l2' : ((roundHalfEven (x * 100) : ℤ) : ℚ) ≤ ((100 * b : ℤ) : ℚ) := by exact_mod_cast l2
  unfold round2
  constructor
  · rw [le_div_iff₀ (show (0 : ℚ) < 100 by norm_num)]
    push_cast at l1' ⊢
    linarith
  · rw [div_le_iff₀ (show (0 : ℚ) < 100 by norm_num)]
    push_cast at l2' ⊢
    linarith

theorem drawN_length {σ α : Type} (d : σ → α × σ) (n : ℕ) (s : σ) :
    ((drawN d n s).1).length = n := by
  induction n generalizing s with
  | zero => rfl
  | succ n ih => simp [drawN, ih]

theorem drawN_mem {σ α : Type} (d : σ → α × σ) (n : ℕ) (s : σ) :
    ∀ x ∈ (drawN d n s).1, ∃ t, x = (d t).1 := by
  induction n generalizing s with
  | zero => intro x hx; simp [drawN] at hx
  | succ n ih =>
    intro x hx
    simp only [drawN, List.mem_cons] at hx
    rcases hx with h | h
    · exact ⟨s, h⟩
    · exact ih _ x h

theorem getD_map_lt {α β : Type} (f : α → β) (l : List α) (i : ℕ) (d : β)
    (h : i < l.length) : ∃ x ∈ l, (l.map f).getD i d = f x := by
  have h' : i < (l.map f).length := by simpa using h
  refine ⟨l.get ⟨i, h⟩, List.get_mem l i h, ?_⟩
  rw [List.getD_eq_getElem _ _ h']
  simp [List.getElem_map]

theorem foldl_min_mem (xs : List ℚ) (x : ℚ) : xs.foldl min x ∈ x :: xs := by
  induction xs generalizing x with
  | nil => simp
  | cons y ys ih =>
    rw [List.foldl_cons]
    rcases min_choice x y with hm | hm <;> rw [hm]
    · rcases List.mem_cons.mp (ih x) with h' | h' <;> simp [h']
    · rcases List.mem_cons.mp (ih y) with h' | h' <;> simp [h']

theorem foldl_min_le (xs : List ℚ) (x : ℚ) : ∀ y ∈ x :: xs, xs.foldl min x ≤ y := by
  induction xs generalizing x with
  | nil =>
    intro y hy
    simp at hy
    simp [hy]
  | cons z zs ih =>
    intro y hy
    rw [List.foldl_cons]
    have h1 : zs.foldl min (min x z) ≤ min x z :=
      ih (min x z) (min x z) (List.mem_cons_self _ _)
    rcases List.mem_cons.mp hy with rfl | hy'
    · exact le_trans h1 (min_le_left _ _)
    · rcases List.mem_cons.mp hy' with rfl | hy''
      · exact le_trans h1 (min_le_right _ _)
      · exact ih (min x z) y (List.mem_cons.mpr (Or.inr hy''))

theorem foldl_max_mem (xs : List ℚ) (x : ℚ) : xs.foldl max x ∈ x :: xs := by
  induction xs generalizing x with
  | nil => simp
  | cons y ys ih =>
    rw [List.foldl_cons]
    rcases max_choice x y with hm | hm <;> rw [hm]
    · rcases List.mem_cons.mp (ih x) with h' | h' <;> simp [h']
    · rcases List.mem_cons.mp (ih y) with h' | h' <;> simp [h']

theorem le_foldl_max (xs : List ℚ) (x : ℚ) : ∀ y ∈ x :: xs, y ≤ xs.foldl max x := by
  induction xs generalizing x with
  | nil =>
    intro y hy
    simp at hy
    simp [hy]
  | cons z zs ih =>
    intro y hy
    rw [List.foldl_cons]
    have h1 : max x z ≤ zs.foldl max (max x z) :=
      ih (max x z) (max x z) (List.mem_cons_self _ _)
    rcases List.mem_cons.mp hy with rfl | hy'
    · exact le_trans (le_max_left _ _) h1
    · rcases List.mem_cons.mp hy' with rfl | hy''
      · exact le_trans (le_max_right _ _) h1
      · exact ih (max x z) y (List.mem_cons.mpr (Or.inr hy''))

theorem round2_zero : round2 0 = 0 := by with_unfolding_all decide

theorem round2_hundred : round2 100 = 100 := by with_unfolding_all decide

theorem normalizeScores_ok {scores finals : List ℚ}
    (h : normalizeScores scores = .ok finals) :
    (∀ y ∈ finals, 0 ≤ y ∧ y ≤ 100) ∧ (0 ∈ finals) ∧ (100 ∈ finals) ∧
      finals.length = scores.length := by
  cases scores with
  | nil => exact absurd h (by simp [normalizeScores])
  | cons x xs =>
    simp only [normalizeScores] at h
    set m := xs.foldl min x with hm
    set M := xs.foldl max x with hM
    by_cases hd : M - m = 0
    · rw [if_pos hd] at h; cases h
    · rw [if_neg hd] at h
      injection h with h
      subst h
      have hmMem : m ∈ x :: xs := foldl_min_mem xs x
      have hmLe : ∀ y ∈ x :: xs, m ≤ y := foldl_min_le xs x
      have hMMem : M ∈ x :: xs := foldl_max_mem xs x
      have hMLe : ∀ y ∈ x :: xs, y ≤ M := le_foldl_max xs x
      have hmM : m ≤ M := hmLe M hMMem
      have hpos : 0 < M - m := lt_of_le_of_ne (by linarith) (Ne.symm hd)
      refine ⟨?_, ?_, ?_, List.length_map _ _⟩
      · intro y hy
        rw [List.mem_map] at hy
        obtain ⟨z, hz, rfl⟩ := hy
        have h1 : 0 ≤ (z - m) / (M - m) :=
          div_nonneg (by linarith [hmLe z hz]) (le_of_lt hpos)
        have h2 : (z - m) / (M - m) ≤ 1 :=
          (div_le_one hpos).mpr (by linarith [hMLe z hz])
        have hb := round2_bounds (a := 0) (b := 100) (x := (z - m) / (M - m) * 100)
          (by push_cast; nlinarith) (by push_cast; nlinarith)
        constructor
        · exact_mod_cast hb.1
        · exact_mod_cast hb.2
      · rw [List.mem_map]
        refine ⟨m, hmMem, ?_⟩
        rw [sub_self, zero_div, zero_mul, round2_zero]
      · rw [List.mem_map]
        refine ⟨M, hMMem, ?_⟩
        rw [div_self hd, one_mul, round2_hundred]

/-! ## Claims C1, C2, C3 -/

/--
C1 (counterexample): the base-score formula of the claim, with household-income
coefficient `0.02`, disagrees with the base score `generate_dataset`
actually computes, already on the first record of the concrete generation
call with `num_students = 2`, `random_seed = 0` (the code computes
`(household_income / 10000) * 0.2`, i.e. coefficient `0.00002`).
-/
theorem C1_income_coefficient_counterexample :
    performance_base (colFeatures (genColumns dummyRng ⟨2, 0⟩).1 0) ≠
      spec_base_claimed (colFeatures (genColumns dummyRng ⟨2, 0⟩).1 0) := by
  with_unfolding_all decide

/--
C1 (amended): for every sampler, configuration and record index, the
pre-noise base score computed by `generate_dataset` equals
`15*previous_gpa + 1.2*study_hours + 0.3*attendance_rate + 2*sleep_hours
+ 0.5*exercise_hours + 3*has_internet + 4*has_computer
+ 0.3*extracurricular_hours + 0.00002*household_income + education bonus
(PhD 5, Master 3, Bachelor 1, else 0) + (2 if Private else 0)
+ 0.1*(30 - class_size)` — the formula of the claim with the income
coefficient corrected from `0.02` to `0.00002`.
-/
theorem C1_base_score_formula {σ : Type} (rng : NpRandom σ) (g : GenConfig) (i : ℕ) :
    performance_base (colFeatures (genColumns rng g).1 i) =
      spec_base_amended (colFeatures (genColumns rng g).1 i) := by
  generalize colFeatures (genColumns rng g).1 i = f
  unfold performance_base spec_base_amended education_bonus
  ring_nf

/--
C2 (counterexample): `generate_dataset` neither enforces a minimum batch
size of 2 nor falls back to `final_score = 50` when max equals min: on the
concrete call with `num_students = 1` it reaches the normalization and
performs the division by zero (`max - min = 0`).
-/
theorem C2_division_by_zero_counterexample :
    (generate_dataset dummyRng ⟨1, 0⟩ 0).1 = .error .divByZero := by
  with_unfolding_all decide

/--
C2 (amended): `generate_dataset` treats no batch as an edge case: for
every sampler and seed, a call with `num_students = 1` always runs the
score normalization into a division by zero (there is no minimum batch
size and no `max = min` fallback).
-/
theorem C2_single_record_divides_by_zero {σ : Type} (rng : NpRandom σ) (g : GenConfig)
    (s : σ) (h : g.num_students = 1) :
    (generate_dataset rng g s).1 = .error .divByZero := by
  have hn : normalizeScores (rawScores (genColumns rng g).1 g.num_students) =
      .error .divByZero := by
    rw [h]
    have hr : rawScores (genColumns rng g).1 1 =
        [performance_base (colFeatures (genColumns rng g).1 0) +
          (genColumns rng g).1.noise.getD 0 0] := by
      unfold rawScores
      rw [show List.range 1 = [0] from rfl]
      rfl
    rw [hr]
    simp [normalizeScores]
  simp only [generate_dataset]
  rw [hn]

/-- Witness for `C2_single_record_divides_by_zero` at a concrete input. -/
theorem C2_single_record_divides_by_zero_witness :
    (⟨1, 5⟩ : GenConfig).num_students = 1 ∧
      (generate_dataset dummyRng ⟨1, 5⟩ 3).1 = .error .divByZero :=
  ⟨by decide, C2_single_record_divides_by_zero dummyRng ⟨1, 5⟩ 3 (by decide)⟩

/--
C3 (confirmed): `generate_dataset` re-applies the stored seed before
sampling, so its output is a function of `(num_students, random_seed)`
alone: calls from any two incoming numpy states return equal datasets
(every field of every record equal, by equality of the record lists), and
in particular a repeated call on the same instance — whose incoming state
is whatever the first call left behind — reproduces the first dataset.
-/
theorem C3_generation_deterministic {σ : Type} (rng : NpRandom σ) (g : GenConfig) :
    (∀ s₁ s₂ : σ, (generate_dataset rng g s₁).1 = (generate_dataset rng g s₂).1) ∧
      (∀ s : σ,
        (generate_dataset rng g (generate_dataset rng g s).2).1 =
          (generate_dataset rng g s).1) :=
  ⟨fun _ _ => rfl, fun _ => rfl⟩

/-! ## Claim C4: field bounds and score extremes -/

theorem getD_bound {α : Type} {l : List α} {d : α} {P : α → Prop} (hd : P d)
    (hl : ∀ x ∈ l, P x) (i : ℕ) : P (l.getD i d) := by
  by_cases h : i < l.length
  · rw [List.getD_eq_getElem _ _ h]
    exact hl _ (List.getElem_mem h)
  · rw [List.getD_eq_default _ _ (le_of_not_lt h)]
    exact hd

theorem genColumns_ages_all {σ : Type} (rng : NpRandom σ) (g : GenConfig) :
    ∀ a ∈ (genColumns rng g).1.ages, 16 ≤ a ∧ a ≤ 25 := by
  intro a ha
  simp only [genColumns] at ha
  rw [List.mem_map] at ha
  obtain ⟨x, hx, rfl⟩ := ha
  exact truncToInt_bounds (by norm_num)
    (by exact_mod_cast lo_le_clip 16 25 x (by norm_num))
    (by exact_mod_cast clip_le_hi 16 25 x)

theorem genColumns_class_size_all {σ : Type} (rng : NpRandom σ) (g : GenConfig) :
    ∀ a ∈ (genColumns rng g).1.class_size, 10 ≤ a ∧ a ≤ 50 := by
  intro a ha
  simp only [genColumns] at ha
  rw [List.mem_map] at ha
  obtain ⟨x, hx, rfl⟩ := ha
  exact truncToInt_bounds (by norm_num)
    (by exact_mod_cast lo_le_clip 10 50 x (by norm_num))
    (by exact_mod_cast clip_le_hi 10 50 x)

theorem genColumns_gpa_all {σ : Type} (rng : NpRandom σ) (g : GenConfig) :
    ∀ v ∈ (genColumns rng g).1.previous_gpa, 0 ≤ v ∧ v ≤ 4 := by
  intro v hv
  simp only [genColumns] at hv
  rw [List.mem_map] at hv
  obtain ⟨x, hx, rfl⟩ := hv
  obtain ⟨t, rfl⟩ := drawN_mem _ _ _ x hx
  obtain ⟨hb0, hb1⟩ := rng.betaSample_unit 2 1 t
  have hb := round2_bounds (a := 0) (b := 4)
    (x := (rng.betaSample 2 1 t).1 * 4) (by push_cast; nlinarith) (by push_cast; nlinarith)
  exact ⟨by exact_mod_cast hb.1, by exact_mod_cast hb.2⟩

theorem genColumns_attendance_all {σ : Type} (rng : NpRandom σ) (g : GenConfig) :
    ∀ v ∈ (genColumns rng g).1.attendance_rate, 0 ≤ v ∧ v ≤ 100 := by
  intro v hv
  simp only [genColumns] at hv
  rw [List.mem_map] at hv
  obtain ⟨x, hx, rfl⟩ := hv
  obtain ⟨t, rfl⟩ := drawN_mem _ _ _ x hx
  obtain ⟨hb0, hb1⟩ := rng.betaSample_unit 5 1 t
  constructor <;> nlinarith

theorem genColumns_income_all {σ : Type} (rng : NpRandom σ) (g : GenConfig) :
    ∀ v ∈ (genColumns rng g).1.household_income, 20000 ≤ v ∧ v ≤ 200000 := by
  intro v hv
  simp only [genColumns] at hv
  rw [List.mem_map] at hv
  obtain ⟨x, hx, rfl⟩ := hv
  exact ⟨lo_le_clip _ _ x (by norm_num), clip_le_hi _ _ x⟩

theorem genColumns_study_all {σ : Type} (rng : NpRandom σ) (g : GenConfig) :
    ∀ v ∈ (genColumns rng g).1.study_hours_per_week, 1 ≤ v ∧ v ≤ 40 := by
  intro v hv
  simp only [genColumns] at hv
  rw [List.mem_map] at hv
  obtain ⟨x, hx, rfl⟩ := hv
  exact ⟨lo_le_clip _ _ x (by norm_num), clip_le_hi _ _ x⟩

theorem genColumns_sleep_all {σ : Type} (rng : NpRandom σ) (g : GenConfig) :
    ∀ v ∈ (genColumns rng g).1.sleep_hours, 4 ≤ v ∧ v ≤ 12 := by
  intro v hv
  simp only [genColumns] at hv
  rw [List.mem_map] at hv
  obtain ⟨x, hx, rfl⟩ := hv
  exact ⟨lo_le_clip _ _ x (by norm_num), clip_le_hi _ _ x⟩

theorem genColumns_exercise_all {σ : Type} (rng : NpRandom σ) (g : GenConfig) :
    ∀ v ∈ (genColumns rng g).1.exercise_hours_per_week, 0 ≤ v ∧ v ≤ 20 := by
  intro v hv
  simp only [genColumns] at hv
  rw [List.mem_map] at hv
  obtain ⟨x, hx, rfl⟩ := hv
  exact ⟨lo_le_clip _ _ x (by norm_num), clip_le_hi _ _ x⟩

theorem genColumns_extracurricular_all {σ : Type} (rng : NpRandom σ) (g : GenConfig) :
    ∀ v ∈ (genColumns rng g).1.extracurricular_hours, v ≤ 15 := by
  intro v hv
  simp only [genColumns] at hv
  rw [List.mem_map] at hv
  obtain ⟨k, hk, rfl⟩ := hv
  exact min_le_right _ _

theorem generate_dataset_ok {σ : Type} {rng : NpRandom σ} {g : GenConfig} {s : σ}
    {recs : List StudentRecord} (h : (generate_dataset rng g s).1 = .ok recs) :
    ∃ finals,
      normalizeScores (rawScores (genColumns rng g).1 g.num_students) = .ok finals ∧
        recs = (List.range g.num_students).map (buildRecord (genColumns rng g).1 finals) := by
  revert h
  simp only [generate_dataset]
  cases hn : normalizeScores (rawScores (genColumns rng g).1 g.num_students) with
  | error e =>
    intro h
    simp at h
  | ok finals =>
    intro h
    refine ⟨finals, rfl, ?_⟩
    have h' : Except.ok ((List.range g.num_students).map
        (buildRecord (genColumns rng g).1 finals)) = Except.ok recs := h
    injection h' with h'
    exact h'.symm

/--
C4 (confirmed): whenever `generate_dataset` returns a dataset (which it
does exactly when the batch is nonempty and the noisy raw scores are not
all equal — in particular this forces at least two records), every bounded
field of every record lies in its documented closed interval (`age` in
[16,25], `previous_gpa` in [0,4], `attendance_rate` in [0,100],
`sleep_hours` in [4,12], `exercise_hours_per_week` in [0,20],
`extracurricular_hours` in [0,15], `class_size` in [10,50],
`household_income` in [20000,200000], `study_hours_per_week` at most 40,
`final_score` in [0,100]), and at least one record attains final score
exactly 0 and one exactly 100.
-/
theorem C4_bounds_and_extremes {σ : Type} (rng : NpRandom σ) (g : GenConfig) (s : σ)
    (recs : List StudentRecord) (h : (generate_dataset rng g s).1 = .ok recs) :
    (∀ r ∈ recs, recordInBounds r) ∧
      (∃ r ∈ recs, r.final_score = 0) ∧ (∃ r ∈ recs, r.final_score = 100) := by
  obtain ⟨finals, hn, hrecs⟩ := generate_dataset_ok h
  obtain ⟨hbnd, h0, h100, hlen⟩ := normalizeScores_ok hn
  have hlenraw : (rawScores (genColumns rng g).1 g.num_students).length = g.num_students := by
    simp [rawScores]
  have hlenfin : finals.length = g.num_students := hlen.trans hlenraw
  subst hrecs
  have hfinget : ∀ i : ℕ, 0 ≤ finals.getD i 0 ∧ finals.getD i 0 ≤ 100 := by
    intro i
    exact getD_bound ⟨le_refl _, by norm_num⟩ hbnd i
  refine ⟨?_, ?_, ?_⟩
  · intro r hr
    rw [List.mem_map] at hr
    obtain ⟨i, _, rfl⟩ := hr
    have ha := getD_bound (P := fun a => 16 ≤ a ∧ a ≤ 25)
      ⟨le_refl _, by norm_num⟩ (genColumns_ages_all rng g) i
    have hgp := getD_bound (P := fun v => 0 ≤ v ∧ v ≤ 4)
      ⟨le_refl _, by norm_num⟩ (genColumns_gpa_all rng g) i
    have hat := getD_bound (P := fun v => 0 ≤ v ∧ v ≤ 100)
      ⟨le_refl _, by norm_num⟩ (genColumns_attendance_all rng g) i
    have hsl := getD_bound (P := fun v => 4 ≤ v ∧ v ≤ 12)
      ⟨le_refl _, by norm_num⟩ (genColumns_sleep_all rng g) i
    have hex := getD_bound (P := fun v => 0 ≤ v ∧ v ≤ 20)
      ⟨le_refl _, by norm_num⟩ (genColumns_exercise_all rng g) i
    have hec := getD_bound (d := 0) (P := fun v => v ≤ 15)
      (by norm_num) (genColumns_extracurricular_all rng g) i
    have hcs := getD_bound (P := fun a => 10 ≤ a ∧ a ≤ 50)
      ⟨le_refl _, by norm_num⟩ (genColumns_class_size_all rng g) i
    have hin := getD_bound (P := fun v => 20000 ≤ v ∧ v ≤ 200000)
      ⟨le_refl _, by norm_num⟩ (genColumns_income_all rng g) i
    have hst := getD_bound (P := fun v => 1 ≤ v ∧ v ≤ 40)
      ⟨le_refl _, by norm_num⟩ (genColumns_study_all rng g) i
    have hinR := round2_bounds (a := 20000) (b := 200000)
      (by exact_mod_cast hin.1) (by exact_mod_cast hin.2)
    have hstR := round2_bounds (a := 1) (b := 40)
      (by exact_mod_cast hst.1) (by exact_mod_cast hst.2)
    have hatR := round2_bounds (a := 0) (b := 100)
      (by exact_mod_cast hat.1) (by exact_mod_cast hat.2)
    have hslR := round2_bounds (a := 4) (b := 12)
      (by exact_mod_cast hsl.1) (by exact_mod_cast hsl.2)
    have hexR := round2_bounds (a := 0) (b := 20)
      (by exact_mod_cast hex.1) (by exact_mod_cast hex.2)
    have hfin := hfinget i
    refine ⟨ha.1, ha.2, hgp.1, hgp.2, ?_, ?_, ?_, ?_, ?_, ?_, hec, hcs.1, hcs.2,
      ?_, ?_, ?_, hfin.1, hfin.2⟩
    · exact_mod_cast hatR.1
    · exact_mod_cast hatR.2
    · exact_mod_cast hslR.1
    · exact_mod_cast hslR.2
    · exact_mod_cast hexR.1
    · exact_mod_cast hexR.2
    · exact_mod_cast hinR.1
    · exact_mod_cast hinR.2
    · exact_mod_cast hstR.2
  · obtain ⟨j, hj, hje⟩ := List.getElem_of_mem h0
    refine ⟨buildRecord (genColumns rng g).1 finals j, ?_, ?_⟩
    · exact List.mem_map_of_mem _ (List.mem_range.mpr (hlenfin ▸ hj))
    · show finals.getD j 0 = 0
      rw [List.getD_eq_getElem _ _ hj]
      exact hje
  · obtain ⟨j, hj, hje⟩ := List.getElem_of_mem h100
    refine ⟨buildRecord (genColumns rng g).1 finals j, ?_, ?_⟩
    · exact List.mem_map_of_mem _ (List.mem_range.mpr (hlenfin ▸ hj))
    · show finals.getD j 0 = 100
      rw [List.getD_eq_getElem _ _ hj]
      exact hje

set_option maxRecDepth 4000 in
/-- Witness for `C4_bounds_and_extremes` at a concrete input. -/
theorem C4_bounds_and_extremes_witness :
    (generate_dataset dummyRng ⟨2, 0⟩ 0).1 = .ok recsW ∧
      ((∀ r ∈ recsW, recordInBounds r) ∧
        (∃ r ∈ recsW, r.final_score = 0) ∧ (∃ r ∈ recsW, r.final_score = 100)) :=
  ⟨by with_unfolding_all rfl,
    C4_bounds_and_extremes dummyRng ⟨2, 0⟩ 0 recsW (by with_unfolding_all rfl)⟩

/-! ## Claim C7: untrained predict always fails -/

/--
C7 (confirmed): for every input frame, `predict` on a model that has never
been trained and never loaded (so `self.model is None`) raises the
untrained-model error; it never returns predictions.
-/
theorem C7_untrained_predict_fails (lib : SkLib) (m : SkModel) (df : DataFrame)
    (h : m.model = none) : predict lib m df = .error .notTrained := by
  unfold predict
  rw [h]

/-- Witness for `C7_untrained_predict_fails` on a fresh model. -/
theorem C7_untrained_predict_fails_witness :
    SkModel.init.model = none ∧
      predict dummyLib SkModel.init dfTrainW = .error .notTrained :=
  ⟨rfl, C7_untrained_predict_fails dummyLib SkModel.init dfTrainW rfl⟩

/-! ## Claim C9: unrecognized model_type silently trains the forest -/

/--
C9 (confirmed): `train` applies no validation to `model_type`: for every
string other than `"linear"` it succeeds or fails exactly as
`"random_forest"` would (it never rejects the value), and whenever it
succeeds the fitted estimator is the 100-tree random forest
(`n_estimators=100, random_state=42, max_depth=10, min_samples_split=5`).
-/
theorem C9_unrecognized_model_type (lib : SkLib) (m : SkModel) (df : DataFrame)
    (mt : String) (h : mt ≠ "linear") :
    ((train lib m df mt).isOk = (train lib m df "random_forest").isOk) ∧
      ∀ m', train lib m df mt = .ok m' →
        ∃ fe, m'.model = some fe ∧ fe.spec = .randomForestRegressor 100 42 10 5 := by
  constructor
  · unfold train
    split
    · rfl
    · split
      · rfl
      · split
        · rfl
        · rfl
  · intro m' hm'
    unfold train at hm'
    split at hm'
    · cases hm'
    · split at hm'
      · cases hm'
      · split at hm'
        · injection hm' with hm'
          subst hm'
          refine ⟨_, rfl, ?_⟩
          rw [if_neg h]
        · cases hm'

/-- Witness for `C9_unrecognized_model_type` at `model_type = "svm"`. -/
theorem C9_unrecognized_model_type_witness :
    ("svm" : String) ≠ "linear" ∧
      (((train dummyLib SkModel.init dfTrainW "svm").isOk =
          (train dummyLib SkModel.init dfTrainW "random_forest").isOk) ∧
        ∀ m', train dummyLib SkModel.init dfTrainW "svm" = .ok m' →
          ∃ fe, m'.model = some fe ∧ fe.spec = .randomForestRegressor 100 42 10 5) :=
  ⟨by decide,
    C9_unrecognized_model_type dummyLib SkModel.init dfTrainW "svm" (by decide)⟩

/-! ## Claim C10: model directory resolution -/

/--
C10 (confirmed): `save_model` and `load_model` discard any non-absolute
directory argument: every non-absolute argument resolves to the fixed
package-relative `models` directory (`dirname(dirname(__file__))/models`),
so two non-absolute arguments yield identical artifact paths, while an
absolute argument is used as given.
-/
theorem C10_model_dir_resolution :
    (∀ f p q, isAbsPath p = false → isAbsPath q = false →
      resolve_model_dir f p = joinPath (dirnameOf (dirnameOf f)) "models" ∧
        resolve_model_dir f p = resolve_model_dir f q ∧
        save_model_paths f p = save_model_paths f q ∧
        load_model_paths f p = load_model_paths f q) ∧
      ∀ f r, isAbsPath r = true → resolve_model_dir f r = r := by
  constructor
  · intro f p q hp hq
    unfold save_model_paths load_model_paths resolve_model_dir
    simp [hp, hq]
  · intro f r hr
    unfold resolve_model_dir
    simp only [hr, if_true]

/-- Witness for `C10_model_dir_resolution` at concrete paths. -/
theorem C10_model_dir_resolution_witness :
    isAbsPath "../models" = false ∧ isAbsPath "models" = false ∧
      isAbsPath "/opt/artifacts" = true ∧
      (resolve_model_dir "/repo/src/model.py" "../models" =
          joinPath (dirnameOf (dirnameOf "/repo/src/model.py")) "models" ∧
        resolve_model_dir "/repo/src/model.py" "../models" =
          resolve_model_dir "/repo/src/model.py" "models" ∧
        save_model_paths "/repo/src/model.py" "../models" =
          save_model_paths "/repo/src/model.py" "models" ∧
        load_model_paths "/repo/src/model.py" "../models" =
          load_model_paths "/repo/src/model.py" "models") ∧
      resolve_model_dir "/repo/src/model.py" "/opt/artifacts" = "/opt/artifacts" :=
  ⟨by with_unfolding_all decide, by with_unfolding_all decide, by with_unfolding_all decide,
    C10_model_dir_resolution.1 "/repo/src/model.py" "../models" "models"
      (by with_unfolding_all decide) (by with_unfolding_all decide),
    C10_model_dir_resolution.2 "/repo/src/model.py" "/opt/artifacts" (by with_unfolding_all decide)⟩

/-! ## Lemmas about encoders, frames and preprocessing -/

theorem indexOfCell_eq_none :
    ∀ (classes : List CellVal) (v : CellVal), v ∉ classes →
      indexOfCell classes v = none := by
  intro classes
  induction classes with
  | nil => intro v _; rfl
  | cons c rest ih =>
    intro v h
    rw [List.mem_cons, not_or] at h
    rw [indexOfCell, if_neg (fun hc => h.1 hc.symm)]
    simp [ih v h.2]

theorem transform_eq_none {e : LabelEncoder} :
    ∀ {values : List CellVal} {v : CellVal}, v ∈ values → v ∉ e.classes →
      e.transform values = none := by
  intro values
  induction values with
  | nil => intro v hv _; cases hv
  | cons x xs ih =>
    intro v hv hn
    rw [List.mem_cons] at hv
    unfold LabelEncoder.transform
    rw [List.mapM_cons]
    rcases hv with rfl | hv
    · rw [indexOfCell_eq_none _ _ hn]
      rfl
    · have hrec := ih hv hn
      unfold LabelEncoder.transform at hrec
      cases hx : indexOfCell e.classes x with
      | none => rfl
      | some i =>
        rw [hrec]
        rfl

theorem transform_length {e : LabelEncoder} :
    ∀ {values : List CellVal} {codes : List ℚ},
      e.transform values = some codes → codes.length = values.length := by
  intro values
  induction values with
  | nil =>
    intro codes h
    unfold LabelEncoder.transform at h
    rw [List.mapM_nil] at h
    injection h with h
    rw [← h]
    rfl
  | cons x xs ih =>
    intro codes h
    unfold LabelEncoder.transform at h
    rw [List.mapM_cons] at h
    cases hx : indexOfCell e.classes x with
    | none =>
      rw [hx] at h
      have h' : (none : Option (List ℚ)) = some codes := h
      cases h'
    | some i =>
      rw [hx] at h
      cases hrest : xs.mapM (fun v => (indexOfCell e.classes v).map (fun i => (i : ℚ))) with
      | none =>
        rw [hrest] at h
        have h' : (none : Option (List ℚ)) = some codes := h
        cases h'
      | some cs =>
        rw [hrest] at h
        have h' : some (((i : ℕ) : ℚ) :: cs) = some codes := h
        have hlen := ih hrest
        injection h' with h'
        rw [← h']
        simp [hlen]

theorem getCol_map_names (n : ℕ) (f : String → List CellVal) :
    ∀ (names : List String) (c : String), c ∈ names →
      (DataFrame.mk n (names.map (fun c' => (c', f c')))).getCol c = f c := by
  intro names
  induction names with
  | nil => intro c hc; cases hc
  | cons d rest ih =>
    intro c hc
    unfold DataFrame.getCol
    simp only [List.map_cons, List.find?_cons]
    cases hdc : (d == c) with
    | true =>
      have hd : d = c := eq_of_beq hdc
      subst hd
      simp
    | false =>
      have hcr : c ∈ rest := by
        rcases List.mem_cons.mp hc with rfl | h
        · simp at hdc
        · exact h
      have hrec := ih c hcr
      unfold DataFrame.getCol at hrec
      simpa [hdc] using hrec

theorem hasCol_map_names (n : ℕ) (f : String → List CellVal)
    (names : List String) (c : String) (hc : c ∈ names) :
    (DataFrame.mk n (names.map (fun c' => (c', f c')))).hasCol c = true := by
  unfold DataFrame.hasCol
  rw [List.any_eq_true]
  exact ⟨(c, f c), List.mem_map_of_mem _ hc, by simp⟩

theorem lookup_some_key_mem {β : Type} :
    ∀ {l : List (String × β)} {c : String} {v : β},
      l.lookup c = some v → c ∈ l.map Prod.fst := by
  intro l
  induction l with
  | nil => intro c v h; cases h
  | cons p ps ih =>
    intro c v h
    obtain ⟨k, b⟩ := p
    rw [List.lookup_cons] at h
    cases hkc : (c == k) with
    | true =>
      have : c = k := eq_of_beq hkc
      subst this
      simp
    | false =>
      rw [hkc] at h
      simpa using Or.inr (ih h)

theorem hasCol_setCol (df : DataFrame) (c c' : String) (vs : List CellVal) :
    (df.setCol c' vs).hasCol c = df.hasCol c := by
  obtain ⟨n, l⟩ := df
  unfold DataFrame.setCol DataFrame.hasCol
  simp only
  induction l with
  | nil => rfl
  | cons p ps ih =>
    simp only [List.map_cons, List.any_cons]
    rw [ih]
    by_cases hp : p.1 = c'
    · rw [if_pos hp]
    · rw [if_neg hp]

theorem getCol_setCol_ne (df : DataFrame) {c c' : String} (h : c ≠ c')
    (vs : List CellVal) : (df.setCol c' vs).getCol c = df.getCol c := by
  obtain ⟨n, l⟩ := df
  unfold DataFrame.setCol DataFrame.getCol
  simp only
  induction l with
  | nil => rfl
  | cons p ps ih =>
    simp only [List.map_cons, List.find?_cons]
    by_cases hp : p.1 = c'
    · rw [if_pos hp]
      have hb : (p.1 == c) = false := by
        rw [beq_eq_false_iff_ne, hp]
        exact fun hcc => h hcc.symm
      simp only [hb]
      exact ih
    · rw [if_neg hp]
      cases hb : (p.1 == c) with
      | true => rfl
      | false => simpa [hb] using ih

theorem getCol_setCol_self (df : DataFrame) (c : String) (vs : List CellVal)
    (h : df.hasCol c = true) : (df.setCol c vs).getCol c = vs := by
  obtain ⟨n, l⟩ := df
  unfold DataFrame.setCol DataFrame.getCol
  unfold DataFrame.hasCol at h
  simp only at h ⊢
  induction l with
  | nil => simp at h
  | cons p ps ih =>
    simp only [List.any_cons, Bool.or_eq_true] at h
    simp only [List.map_cons, List.find?_cons]
    by_cases hp : p.1 = c
    · rw [if_pos hp]
      have hb : (c == c) = true := by simp
      simp [hp, hb]
    · rw [if_neg hp]
      have hb : (p.1 == c) = false := by
        rw [beq_eq_false_iff_ne]
        exact hp
      simp only [hb]
      rcases h with h | h
      · rw [hb] at h; cases h
      · exact ih h

theorem preprocessLoop_cons_some_err (c : String) (rest : List String)
    (encs : List (String × LabelEncoder)) (df : DataFrame) (e : LabelEncoder)
    (hhas : df.hasCol c = true) (henc : encs.lookup c = some e)
    (htr : e.transform (df.getCol c) = none) :
    preprocessLoop (c :: rest) encs df = (none, encs) := by
  simp only [preprocessLoop]
  rw [if_pos hhas]
  split
  · next heq => rw [henc] at heq; cases heq
  · next e' heq =>
    rw [henc] at heq
    injection heq with heq
    subst heq
    split
    · rfl
    · next codes htr2 => rw [htr] at htr2; cases htr2

theorem preprocessLoop_cons_some_ok (c : String) (rest : List String)
    (encs : List (String × LabelEncoder)) (df : DataFrame) (e : LabelEncoder)
    (codes : List ℚ) (hhas : df.hasCol c = true) (henc : encs.lookup c = some e)
    (htr : e.transform (df.getCol c) = some codes) :
    preprocessLoop (c :: rest) encs df =
      preprocessLoop rest encs (df.setCol c (codes.map CellVal.vnum)) := by
  simp only [preprocessLoop]
  rw [if_pos hhas]
  split
  · next heq => rw [henc] at heq; cases heq
  · next e' heq =>
    rw [henc] at heq
    injection heq with heq
    subst heq
    split
    · next htr2 => rw [htr] at htr2; cases htr2
    · next codes' htr2 =>
      rw [htr] at htr2
      injection htr2 with htr2
      subst htr2
      rfl

theorem preprocessLoop_encs_stable :
    ∀ (cs : List String) (encs : List (String × LabelEncoder)) (df : DataFrame),
      (∀ c ∈ cs, (encs.lookup c).isSome = true) →
      (preprocessLoop cs encs df).2 = encs := by
  intro cs
  induction cs with
  | nil => intro encs df _; rfl
  | cons c rest ih =>
    intro encs df hall
    have hrest : ∀ c' ∈ rest, (encs.lookup c').isSome = true :=
      fun c' hc' => hall c' (List.mem_cons_of_mem _ hc')
    simp only [preprocessLoop]
    split
    · split
      · next heq =>
        have := hall c (List.mem_cons_self _ _)
        rw [heq] at this
        cases this
      · split
        · rfl
        · exact ih encs _ hrest
    · exact ih encs df hrest

theorem preprocessLoop_nrows :
    ∀ (cs : List String) (encs : List (String × LabelEncoder)) (df pdf : DataFrame),
      (preprocessLoop cs encs df).1 = some pdf → pdf.nrows = df.nrows := by
  intro cs
  induction cs with
  | nil =>
    intro encs df pdf h
    injection h with h
    rw [← h]
  | cons c rest ih =>
    intro encs df pdf h
    simp only [preprocessLoop] at h
    split at h
    · split at h
      · exact (ih _ _ _ h).trans rfl
      · split at h
        · cases h
        · exact (ih _ _ _ h).trans rfl
    · exact ih _ _ _ h

theorem preprocessLoop_preserve (c : String) :
    ∀ (cs : List String) (encs : List (String × LabelEncoder)) (df pdf : DataFrame),
      c ∉ cs → (preprocessLoop cs encs df).1 = some pdf →
      pdf.getCol c = df.getCol c ∧ pdf.hasCol c = df.hasCol c := by
  intro cs
  induction cs with
  | nil =>
    intro encs df pdf _ h
    injection h with h
    rw [← h]
    exact ⟨rfl, rfl⟩
  | cons d rest ih =>
    intro encs df pdf hc h
    rw [List.mem_cons, not_or] at hc
    have hcd : c ≠ d := hc.1
    simp only [preprocessLoop] at h
    split at h
    · split at h
      · obtain ⟨h1, h2⟩ := ih _ _ _ hc.2 h
        rw [h1, h2]
        exact ⟨getCol_setCol_ne _ hcd _, hasCol_setCol _ _ _ _⟩
      · split at h
        · cases h
        · obtain ⟨h1, h2⟩ := ih _ _ _ hc.2 h
          rw [h1, h2]
          exact ⟨getCol_setCol_ne _ hcd _, hasCol_setCol _ _ _ _⟩
    · exact ih _ _ _ hc.2 h

/-! ## Claim C5: preprocess on already-encoded data -/

/--
C5 (counterexample): with the fitted encoders and a one-row frame of raw
categorical strings, the first `preprocess_data` succeeds, but applying
`preprocess_data` again to its own output does not return that output —
it fails (the integer codes are not among the fitted string classes), so
preprocessing is not idempotent as claimed.
-/
theorem C5_not_idempotent_counterexample :
    (preprocess_data encsFitted df0C5).1 = some df1C5 ∧
      (preprocess_data encsFitted df1C5).1 ≠ some df1C5 ∧
      (preprocess_data encsFitted df1C5).1 = none := by
  refine ⟨?_, ?_, ?_⟩ <;> with_unfolding_all decide

/--
C5 (amended): when every categorical column already has a fitted encoder,
neither call re-fits anything (the encoder map is returned unchanged, even
on failure); but the second application is not the identity: whenever the
gender column is present and nonempty and its fitted classes are all
strings, re-applying `preprocess_data` to the already-encoded output
raises the unseen-labels error instead of succeeding.
-/
theorem C5_preprocess_not_idempotent :
    (∀ (encs : List (String × LabelEncoder)) (df : DataFrame),
      (∀ c ∈ categorical_columns, (encs.lookup c).isSome = true) →
      (preprocess_data encs df).2 = encs) ∧
    (∀ (encs : List (String × LabelEncoder)) (df df' : DataFrame) (e : LabelEncoder),
      encs.lookup "gender" = some e →
      (∀ v ∈ e.classes, isStrCell v = true) →
      df.hasCol "gender" = true →
      df.getCol "gender" ≠ [] →
      (preprocess_data encs df).1 = some df' →
      (preprocess_data encs df').1 = none) := by
  constructor
  · intro encs df hall
    exact preprocessLoop_encs_stable _ _ _ hall
  · intro encs df df' e henc hstr hhas hne hfirst
    unfold preprocess_data at hfirst ⊢
    rw [show categorical_columns =
      "gender" :: ["parental_education", "school_type"] from rfl] at hfirst ⊢
    cases htr : e.transform (df.getCol "gender") with
    | none =>
      rw [preprocessLoop_cons_some_err _ _ _ _ _ hhas henc htr] at hfirst
      cases hfirst
    | some codes =>
      have hcodes_len : codes.length = (df.getCol "gender").length := transform_length htr
      have hcodes_ne : codes ≠ [] := by
        intro hceq
        rw [hceq] at hcodes_len
        exact hne (List.length_eq_zero.mp hcodes_len.symm)
      rw [preprocessLoop_cons_some_ok _ _ _ _ _ _ hhas henc htr] at hfirst
      have hrest : "gender" ∉ ["parental_education", "school_type"] := by decide
      obtain ⟨hg1, hg2⟩ := preprocessLoop_preserve "gender" _ _ _ _ hrest hfirst
      have hget' : df'.getCol "gender" = codes.map CellVal.vnum := by
        rw [hg1]
        exact getCol_setCol_self _ _ _ hhas
      have hhas' : df'.hasCol "gender" = true := by
        rw [hg2, hasCol_setCol]
        exact hhas
      obtain ⟨q, qs, hcq⟩ : ∃ q qs, codes = q :: qs := by
        cases codes with
        | nil => exact absurd rfl hcodes_ne
        | cons q qs => exact ⟨q, qs, rfl⟩
      have hmem : CellVal.vnum q ∈ df'.getCol "gender" := by
        rw [hget', hcq]
        exact List.mem_cons_self _ _
      have hnotin : CellVal.vnum q ∉ e.classes := by
        intro hmem'
        have := hstr _ hmem'
        simp [isStrCell] at this
      have htr' : e.transform (df'.getCol "gender") = none :=
        transform_eq_none hmem hnotin
      rw [preprocessLoop_cons_some_err _ _ _ _ _ hhas' henc htr']

/-- Witness for `C5_preprocess_not_idempotent` at the concrete encoders
and one-row frame. -/
theorem C5_preprocess_not_idempotent_witness :
    (∀ c ∈ categorical_columns, (encsFitted.lookup c).isSome = true) ∧
      (preprocess_data encsFitted df0C5).2 = encsFitted ∧
      encsFitted.lookup "gender" = some genderEnc ∧
      (∀ v ∈ genderEnc.classes, isStrCell v = true) ∧
      df0C5.hasCol "gender" = true ∧
      df0C5.getCol "gender" ≠ [] ∧
      (preprocess_data encsFitted df0C5).1 = some df1C5 ∧
      (preprocess_data encsFitted df1C5).1 = none :=
  ⟨by decide, C5_preprocess_not_idempotent.1 encsFitted df0C5 (by decide),
    by decide, by decide, by decide, by decide, by with_unfolding_all decide,
    C5_preprocess_not_idempotent.2 encsFitted df0C5 df1C5 genderEnc
      (by decide) (by decide) (by decide) (by decide) (by with_unfolding_all decide)⟩

/-! ## Claim C6: unseen categorical value fails the whole request -/

/--
C6 (confirmed): for every loaded model whose gender encoder was fitted
without the value `"Unknown"`, a two-record batch whose second record has
`gender = "Unknown"` makes `preprocess_data` — and hence `predict` — fail
with the unseen-category error rather than encoding it, and
`predict_batch` surfaces this as a 500-equivalent error response carrying
the error message: the whole request fails with no partial result.
-/
theorem C6_unseen_category_fails (lib : SkLib) (m : SkModel) (est : FittedEstimator)
    (e : LabelEncoder) (r0 r1 : List (String × CellVal))
    (hm : m.model = some est)
    (henc : m.label_encoders.lookup "gender" = some e)
    (hunseen : CellVal.vstr "Unknown" ∉ e.classes)
    (hg : r1.lookup "gender" = some (.vstr "Unknown")) :
    predict lib m (toDF [r0, r1]) = .error .unseenCategory ∧
      predict_batch lib (some m) (.list [r0, r1]) =
        .serverError PredError.unseenCategory.msg := by
  have hkey : "gender" ∈ r1.map Prod.fst := lookup_some_key_mem hg
  have hmemname :
      "gender" ∈ (([r0, r1].map (fun r => r.map Prod.fst)).flatten).dedup := by
    rw [List.mem_dedup, List.mem_flatten]
    exact ⟨r1.map Prod.fst, by simp, hkey⟩
  have hgetcol : (toDF [r0, r1]).getCol "gender" =
      [(r0.lookup "gender").getD .vnan, (r1.lookup "gender").getD .vnan] := by
    exact getCol_map_names 2
      (fun c => List.map (fun r => (List.lookup c r).getD CellVal.vnan) [r0, r1])
      _ _ hmemname
  have hhas : (toDF [r0, r1]).hasCol "gender" = true := by
    exact hasCol_map_names 2
      (fun c => List.map (fun r => (List.lookup c r).getD CellVal.vnan) [r0, r1])
      _ _ hmemname
  have hmemU : CellVal.vstr "Unknown" ∈ (toDF [r0, r1]).getCol "gender" := by
    rw [hgetcol, hg]
    simp
  have htr : e.transform ((toDF [r0, r1]).getCol "gender") = none :=
    transform_eq_none hmemU hunseen
  have hpre : (preprocess_data m.label_encoders (toDF [r0, r1])).1 = none := by
    unfold preprocess_data
    rw [show categorical_columns =
      "gender" :: ["parental_education", "school_type"] from rfl]
    rw [preprocessLoop_cons_some_err _ _ _ _ _ hhas henc htr]
  have hpredE : predict lib m (toDF [r0, r1]) = .error .unseenCategory := by
    unfold predict
    rw [hm, hpre]
  refine ⟨hpredE, ?_⟩
  have hred : predict_batch lib (some m) (.list [r0, r1]) =
      match predict lib m (toDF [r0, r1]) with
      | .error e => .serverError e.msg
      | .ok preds =>
        .ok (batchResults preds [r0, r1]) (batchResults preds [r0, r1]).length := rfl
  rw [hred, hpredE]

/-- Witness for `C6_unseen_category_fails` at a concrete model and batch. -/
theorem C6_unseen_category_fails_witness :
    modelW.model = some estW ∧
      modelW.label_encoders.lookup "gender" = some genderEnc ∧
      CellVal.vstr "Unknown" ∉ genderEnc.classes ∧
      ([("gender", CellVal.vstr "Unknown")] :
        List (String × CellVal)).lookup "gender" = some (.vstr "Unknown") ∧
      (predict dummyLib modelW
          (toDF [[("gender", .vstr "Male")], [("gender", .vstr "Unknown")]]) =
        .error .unseenCategory ∧
      predict_batch dummyLib (some modelW)
          (.list [[("gender", .vstr "Male")], [("gender", .vstr "Unknown")]]) =
        .serverError PredError.unseenCategory.msg) :=
  ⟨by decide, by decide, by decide, by decide,
    C6_unseen_category_fails dummyLib modelW estW genderEnc
      [("gender", .vstr "Male")] [("gender", .vstr "Unknown")]
      (by decide) (by decide) (by decide) (by decide)⟩

/-! ## Claim C8: batch handler contract -/

theorem predictVals_ok_length {lib : SkLib} {est : FittedEstimator}
    {scaler : ScalerState} {pdf : DataFrame} {sel : List (String × List CellVal)}
    {preds : List ℚ} (h : predictVals lib est scaler pdf sel = .ok preds) :
    preds.length = pdf.nrows := by
  simp only [predictVals] at h
  split at h
  · split at h
    · cases h
    · injection h with h
      rw [← h]
      simp [rowsOf]
  · injection h with h
    rw [← h]
    simp [rowsOf]

theorem predict_ok_length {lib : SkLib} {m : SkModel} {df : DataFrame}
    {preds : List ℚ} (h : predict lib m df = .ok preds) :
    preds.length = df.nrows := by
  unfold predict at h
  split at h
  · cases h
  · split at h
    · cases h
    · next pdf hpre =>
      split at h
      · cases h
      · have h1 := predictVals_ok_length h
        have h2 : pdf.nrows = df.nrows := preprocessLoop_nrows _ _ _ _ hpre
        rw [h1, h2]

/--
C8 (counterexample): with a loaded model, the empty list — which is a
list — still gets the 400 response, because `not data` is true for `[]`
in Python; so the 400 cases are not exactly "missing or not a list", and
a list body does not always get one result per record.
-/
theorem C8_empty_list_counterexample :
    (BatchBody.list []).isList = true ∧
      predict_batch dummyLib (some modelW) (.list []) =
        .badRequest "Data should be a list of student records" :=
  ⟨rfl, rfl⟩

/--
C8 (amended): with a loaded model, `predict_batch` returns the
400-equivalent error exactly when the body is missing, not a list, or an
empty list (Python falsiness of `[]`); for every nonempty list body whose
prediction pipeline succeeds it returns one result per input record in
input order, each tagged with its original index `student_index` and its
echoed `input_data`, with `count` equal to the number of inputs.
-/
theorem C8_batch_contract (lib : SkLib) (m : SkModel) :
    (∀ body : BatchBody,
      predict_batch lib (some m) body =
          .badRequest "Data should be a list of student records" ↔
        (body.isTruthy = false ∨ body.isList = false)) ∧
    (∀ (records : List (List (String × CellVal))) (preds : List ℚ),
      records ≠ [] →
      predict lib m (toDF records) = .ok preds →
      predict_batch lib (some m) (.list records) =
          .ok (batchResults preds records) records.length ∧
        (batchResults preds records).length = records.length ∧
        ∀ i, i < records.length →
          (batchResults preds records).getD i ⟨0, 0, []⟩ =
            ⟨i, preds.getD i 0, records.getD i []⟩) := by
  constructor
  · intro body
    cases body with
    | missing => simp [predict_batch, BatchBody.isTruthy, BatchBody.isList]
    | nonList t => simp [predict_batch, BatchBody.isTruthy, BatchBody.isList]
    | list records =>
      cases records with
      | nil => simp [predict_batch, BatchBody.isTruthy, BatchBody.isList]
      | cons r rs =>
        cases hp : predict lib m (toDF (r :: rs)) with
        | error e =>
          simp [predict_batch, BatchBody.isTruthy, BatchBody.isList, hp]
        | ok preds =>
          simp [predict_batch, BatchBody.isTruthy, BatchBody.isList, hp]
  · intro records preds hne hp
    have hlenp : preds.length = records.length := predict_ok_length hp
    have hblen : (batchResults preds records).length = records.length := by
      simp [batchResults, List.enum_length, List.length_zip, hlenp]
    refine ⟨?_, hblen, ?_⟩
    · have hred : predict_batch lib (some m) (.list records) =
          if records.isEmpty then
            .badRequest "Data should be a list of student records"
          else
            match predict lib m (toDF records) with
            | .error e => .serverError e.msg
            | .ok preds =>
              .ok (batchResults preds records) (batchResults preds records).length := rfl
      rw [hred, if_neg (by simp [List.isEmpty_iff, hne]), hp]
      show BatchResponse.ok (batchResults preds records)
          (batchResults preds records).length =
        BatchResponse.ok (batchResults preds records) records.length
      rw [hblen]
    · intro i hi
      have hiz : i < (preds.zip records).length := by
        rw [List.length_zip, hlenp]
        simp [hi]
      have hie : i < (batchResults preds records).length := by
        rw [hblen]
        exact hi
      rw [List.getD_eq_getElem _ _ hie]
      simp only [batchResults, List.getElem_map, List.getElem_enum, List.getElem_zip]
      rw [List.getD_eq_getElem preds 0 (by rw [hlenp]; exact hi),
        List.getD_eq_getElem records [] hi]

/-- Witness for `C8_batch_contract` at a concrete model and batch. -/
theorem C8_batch_contract_witness :
    recordsW8 ≠ [] ∧
      predict dummyLib modelW (toDF recordsW8) = .ok predsW8 ∧
      (predict_batch dummyLib (some modelW) (.list recordsW8) =
          .ok (batchResults predsW8 recordsW8) recordsW8.length ∧
        (batchResults predsW8 recordsW8).length = recordsW8.length ∧
        ∀ i, i < recordsW8.length →
          (batchResults predsW8 recordsW8).getD i ⟨0, 0, []⟩ =
            ⟨i, predsW8.getD i 0, recordsW8.getD i []⟩) :=
  ⟨by decide, by with_unfolding_all decide,
    (C8_batch_contract dummyLib modelW).2 recordsW8 predsW8
      (by decide) (by with_unfolding_all decide)⟩

end StudentPerf

